import Mathlib

/-!
Verification of the OVAL command-line orchestration module
(`src/utils/oscap-oval.c`): the collect, evaluate, analyse workflows,
the result aggregator, result directives, and option parsing, shallowly
embedded in Lean. External collaborators (the probe engine, XML import
and export, schema validation, report rendering) are black boxes whose
outcomes are supplied through explicit environment records; the
definitions below transcribe the orchestration code itself.
-/

namespace OscapOval

/-- The six OVAL verdict categories. The `oval_result_t` enum lives in a
library header outside this module; modelled from the spec: the verdict
categories form a closed set
{true, false, error, unknown, not-evaluated, not-applicable}. -/
inductive oval_result_t where
  | OVAL_RESULT_TRUE
  | OVAL_RESULT_FALSE
  | OVAL_RESULT_ERROR
  | OVAL_RESULT_UNKNOWN
  | OVAL_RESULT_NOT_EVALUATED
  | OVAL_RESULT_NOT_APPLICABLE
deriving DecidableEq, Repr

/-- Modelled from the spec: the verdict categories are used as a bitmask
when building result directives ("verdict-category bitmask for
directives"), so each category carries a distinct bit value. -/
def oval_result_t.bit : oval_result_t → Nat
  | .OVAL_RESULT_TRUE => 1
  | .OVAL_RESULT_FALSE => 2
  | .OVAL_RESULT_UNKNOWN => 4
  | .OVAL_RESULT_ERROR => 8
  | .OVAL_RESULT_NOT_EVALUATED => 16
  | .OVAL_RESULT_NOT_APPLICABLE => 32

/-- Modelled from the spec: textual rendering of a verdict, used by the
console prints `Definition <id>: <verdict-text>` (the function
`oval_result_get_text` is in a library header outside this module). -/
def oval_result_get_text : oval_result_t → String
  | .OVAL_RESULT_TRUE => ("true")
  | .OVAL_RESULT_FALSE => ("false")
  | .OVAL_RESULT_ERROR => ("error")
  | .OVAL_RESULT_UNKNOWN => ("unknown")
  | .OVAL_RESULT_NOT_EVALUATED => ("not evaluated")
  | .OVAL_RESULT_NOT_APPLICABLE => ("not applicable")

/-- Decode an int return value of `oval_agent_eval_definition` back to a
verdict, when it is one (the C code stores verdicts and the error value
-1 in the same `int ret`). -/
def decode_result (i : Int) : Option oval_result_t :=
  if i = Int.ofNat oval_result_t.OVAL_RESULT_TRUE.bit then some .OVAL_RESULT_TRUE
  else if i = Int.ofNat oval_result_t.OVAL_RESULT_FALSE.bit then some .OVAL_RESULT_FALSE
  else if i = Int.ofNat oval_result_t.OVAL_RESULT_UNKNOWN.bit then some .OVAL_RESULT_UNKNOWN
  else if i = Int.ofNat oval_result_t.OVAL_RESULT_ERROR.bit then some .OVAL_RESULT_ERROR
  else if i = Int.ofNat oval_result_t.OVAL_RESULT_NOT_EVALUATED.bit then some .OVAL_RESULT_NOT_EVALUATED
  else if i = Int.ofNat oval_result_t.OVAL_RESULT_NOT_APPLICABLE.bit then some .OVAL_RESULT_NOT_APPLICABLE
  else none

/-- Text of an int-typed result, as printed on the single-definition
path (`oval_result_get_text(ret)` with `ret : int`). -/
def oval_result_text_of_int (i : Int) : String :=
  match decode_result i with
  | some v => oval_result_get_text v
  | none => ("(invalid result)")

/-- Process exit dispositions of oscap-tool.h. Modelled from the spec:
exit status categories are success, policy-fail and hard-error, three
distinct values (`OSCAP_OK`, `OSCAP_FAIL`, `OSCAP_ERROR`). -/
inductive oscap_status where
  | OSCAP_OK
  | OSCAP_ERROR
  | OSCAP_FAIL
deriving DecidableEq, Repr

/-- Modelled from the spec: the fixed "invalid document" marker printed
on schema mismatch (`INVALID_DOCUMENT_MSG` of oscap-tool.h). -/
def INVALID_DOCUMENT_MSG : String := "Invalid document"

/-- `struct oval_usr` (oscap-oval.c lines 138-145): the result
aggregator, one integer counter per verdict category. -/
structure oval_usr where
  result_false : Nat
  result_true : Nat
  result_error : Nat
  result_unknown : Nat
  result_neval : Nat
  result_napp : Nat
deriving DecidableEq, Repr

/-- The aggregator as allocated by `app_evaluate_oval`:
`memset(usr, 0, sizeof(struct oval_usr))`. -/
def oval_usr.zero : oval_usr :=
  { result_false := 0, result_true := 0, result_error := 0,
    result_unknown := 0, result_neval := 0, result_napp := 0 }

/-- Sum of the six aggregator counters. -/
def oval_usr.total (u : oval_usr) : Nat :=
  u.result_true + u.result_false + u.result_error + u.result_unknown +
    u.result_neval + u.result_napp

/-- `app_oval_callback` (oscap-oval.c lines 152-183): prints
`Definition <id>: <verdict-text>` when verbose, then increments the
aggregator counter matching the verdict. Returns the printed lines and
the updated aggregator; the C function additionally returns the int 0
unconditionally. -/
def app_oval_callback (verbose : Int) (defid : String)
    (verdict : oval_result_t) (usr : oval_usr) : List String × oval_usr :=
  let lines : List String :=
    if verbose ≥ 0 then
      [("Definition " ++ defid ++ ": " ++ oval_result_get_text verdict)]
    else []
  let usr2 : oval_usr :=
    match verdict with
    | .OVAL_RESULT_TRUE => { usr with result_true := usr.result_true + 1 }
    | .OVAL_RESULT_FALSE => { usr with result_false := usr.result_false + 1 }
    | .OVAL_RESULT_ERROR => { usr with result_error := usr.result_error + 1 }
    | .OVAL_RESULT_UNKNOWN => { usr with result_unknown := usr.result_unknown + 1 }
    | .OVAL_RESULT_NOT_EVALUATED => { usr with result_neval := usr.result_neval + 1 }
    | .OVAL_RESULT_NOT_APPLICABLE => { usr with result_napp := usr.result_napp + 1 }
  (lines, usr2)

/-- The Definition Model: the catalogue of definitions imported from a
document. Only the list of definition identifiers is relevant to the
orchestration layer. -/
structure oval_definition_model where
  definitions : List String
deriving DecidableEq, Repr

/-- Modelled from the spec: `oval_agent_eval_system` (library
collaborator) evaluates every definition in the batch and invokes the
per-definition callback once per definition with that definition's
verdict ("evaluate produces a lazy sequence of (definition-id, verdict)
pairs; finite", "with the aggregator as a fold/reduce consumer"). The
verdicts themselves come from the probe engine, supplied here by
`verdictOf`; the int return value of the C call is supplied separately
by the workflow environment. -/
def oval_agent_eval_system (verbose : Int) (verdictOf : String → oval_result_t) :
    List String → oval_usr → List String × oval_usr
  | [], usr => ([], usr)
  | d :: rest, usr =>
    let r := app_oval_callback verbose d (verdictOf d) usr
    let rec2 := oval_agent_eval_system verbose verdictOf rest r.2
    (r.1 ++ rec2.1, rec2.2)

/-- Content-detail levels of result directives. Modelled from the spec:
full content detail vs thin/summary detail
(`OVAL_DIRECTIVE_CONTENT_FULL`). -/
inductive oval_directive_content where
  | OVAL_DIRECTIVE_CONTENT_THIN
  | OVAL_DIRECTIVE_CONTENT_FULL
deriving DecidableEq, Repr

/-- Result Directives: for each verdict category, whether it is reported
in the export and at which content detail. -/
structure oval_result_directives where
  reported : oval_result_t → Bool
  content : oval_result_t → oval_directive_content

/-- Modelled from the spec: a fresh directives object before the
workflows configure it (`oval_result_directives_new`); the workflows
overwrite every field for every category. -/
def oval_result_directives_new : oval_result_directives :=
  { reported := fun _ => false,
    content := fun _ => .OVAL_DIRECTIVE_CONTENT_THIN }

/-- `oval_result_directives_set_reported`: for every category whose bit
is in `mask`, set the reported flag to `flag`. -/
def oval_result_directives_set_reported (d : oval_result_directives)
    (mask : Nat) (flag : Bool) : oval_result_directives :=
  { d with reported := fun c => if mask &&& c.bit ≠ 0 then flag else d.reported c }

/-- `oval_result_directives_set_content`: for every category whose bit
is in `mask`, set the content detail to `lvl`. -/
def oval_result_directives_set_content (d : oval_result_directives)
    (mask : Nat) (lvl : oval_directive_content) : oval_result_directives :=
  { d with content := fun c => if mask &&& c.bit ≠ 0 then lvl else d.content c }

/-- The directives built by the results-export blocks of
`app_evaluate_oval` (lines 303-315) and `app_analyse_oval` (lines
377-389); the two blocks are textually identical in the C source. The
masks keep the C source's operand order (`set_reported`: TRUE, FALSE,
UNKNOWN, NOT_EVALUATED, ERROR, NOT_APPLICABLE; `set_content`: TRUE,
FALSE, UNKNOWN, NOT_EVALUATED, NOT_APPLICABLE, ERROR). -/
def build_export_directives : oval_result_directives :=
  let d0 := oval_result_directives_new
  let d1 := oval_result_directives_set_reported d0
    (oval_result_t.OVAL_RESULT_TRUE.bit ||| oval_result_t.OVAL_RESULT_FALSE.bit |||
     oval_result_t.OVAL_RESULT_UNKNOWN.bit ||| oval_result_t.OVAL_RESULT_NOT_EVALUATED.bit |||
     oval_result_t.OVAL_RESULT_ERROR.bit ||| oval_result_t.OVAL_RESULT_NOT_APPLICABLE.bit)
    true
  oval_result_directives_set_content d1
    (oval_result_t.OVAL_RESULT_TRUE.bit ||| oval_result_t.OVAL_RESULT_FALSE.bit |||
     oval_result_t.OVAL_RESULT_UNKNOWN.bit ||| oval_result_t.OVAL_RESULT_NOT_EVALUATED.bit |||
     oval_result_t.OVAL_RESULT_NOT_APPLICABLE.bit ||| oval_result_t.OVAL_RESULT_ERROR.bit)
    .OVAL_DIRECTIVE_CONTENT_FULL

/-- Resources acquired and released by the workflows (the heap objects
whose lifetime the orchestrator manages). -/
inductive Res where
  | defModel
  | agentSession
  | usrStruct
  | sysModel
  | probeSession
  | sysinfoStruct
  | resultDirectives
deriving DecidableEq, Repr

/-- The fields of `struct oscap_action` consumed by this module: the
option-to-configuration mapping produced by the option parser. -/
structure oscap_action where
  validate : Bool
  verbosity : Int
  id : Option String
  f_results : Option String
  f_report : Option String
  f_oval : String
  f_syschar : String
deriving DecidableEq, Repr

/-- Outcomes of the external collaborators invoked by
`app_evaluate_oval`, supplied as an explicit environment. -/
structure EvalEnv where
  /-- Return of `oscap_validate_document`. -/
  validate_ok : Bool
  /-- Whether `oscap_err()` is pending after a failed validation. -/
  err_after_validate : Bool
  /-- Return of `oval_definition_model_import` (`none` = NULL). -/
  def_model : Option oval_definition_model
  /-- Whether `oval_agent_new_session` succeeds (`false` = NULL). -/
  session_ok : Bool
  /-- Whether `oscap_err()` is pending after a failed session creation. -/
  err_after_session : Bool
  /-- Return of `oval_agent_eval_definition` on the single-definition
  path: `some v` = the verdict `v` (as its int value), `none` = -1. -/
  eval_def_result : Option oval_result_t
  /-- Int return of `oval_agent_eval_system` on the batch path. -/
  eval_sys_ret : Int
  /-- The verdict the evaluation produces for each definition
  identifier (probe-engine outcome, black box). -/
  verdictOf : String → oval_result_t
  /-- Whether `oscap_err()` is pending at the post-evaluation check. -/
  err_after_eval : Bool
  /-- Description text of the pending library error (`oscap_err_desc`). -/
  err_desc : String
  /-- Code of the pending library error (`oscap_err_code`). -/
  err_code : Int

/-- Observable outcome of one `app_evaluate_oval` run. -/
structure EvalOut where
  status : oscap_status
  out_lines : List String
  err_lines : List String
  /-- Whether `oval_definition_model_import` was reached. -/
  import_called : Bool
  /-- Results export: destination path and the directives passed. -/
  results_exported : Option (String × oval_result_directives)
  /-- HTML report rendering: destination path. -/
  report_rendered : Option String
  acquired : List Res
  freed : List Res

/-- Empty base outcome record. -/
def EvalOut.base : EvalOut :=
  { status := .OSCAP_OK, out_lines := [], err_lines := [],
    import_called := false, results_exported := none,
    report_rendered := none, acquired := [], freed := [] }

/-- `app_evaluate_oval` after the validation block (oscap-oval.c lines
251-345): import the Definition Model, open the agent session, allocate
and zero the aggregator, evaluate (single definition or batch), check
for an evaluation fault, print the aggregate report, optionally export
results and render a report, clean up, and derive the disposition. -/
def app_evaluate_oval_core (action : oscap_action) (env : EvalEnv) : EvalOut :=
  match env.def_model with
  | none =>
    { EvalOut.base with
      status := .OSCAP_ERROR, import_called := true,
      err_lines := [("Failed to import the definition model (" ++ action.f_oval ++ ").")] }
  | some dm =>
    if !env.session_ok then
      { EvalOut.base with
        status := .OSCAP_ERROR, import_called := true,
        acquired := [Res.defModel],
        err_lines :=
          (if env.err_after_session then
            [("Error: (" ++ toString env.err_code ++ ") " ++ env.err_desc)]
          else []) ++ [("Failed to create new agent session.")] }
    else
      let usr0 : oval_usr := oval_usr.zero
      let evalStep : Int × List String × oval_usr :=
        match action.id with
        | some defid =>
          let ret : Int :=
            match env.eval_def_result with
            | some v => Int.ofNat v.bit
            | none => (-1 : Int)
          let lines : List String :=
            if action.verbosity ≥ 0 then
              [("Definition " ++ defid ++ ": " ++ oval_result_text_of_int ret)]
            else []
          (ret, lines, usr0)
        | none =>
          let r := oval_agent_eval_system action.verbosity env.verdictOf dm.definitions usr0
          (env.eval_sys_ret, r.1, r.2)
      let ret : Int := evalStep.1
      let usr : oval_usr := evalStep.2.2
      let lines1 : List String :=
        evalStep.2.1 ++ (if action.verbosity ≥ 0 then [("Evaluation done.")] else [])
      if ret = -1 ∧ env.err_after_eval then
        { EvalOut.base with
          status := .OSCAP_ERROR, import_called := true,
          out_lines := lines1,
          err_lines := [("Error: (" ++ toString env.err_code ++ ") " ++ env.err_desc)],
          acquired := [Res.defModel, Res.agentSession, Res.usrStruct],
          freed := [] }
      else
        let reportLines : List String :=
          if action.verbosity ≥ 0 ∧ action.id = none then
            [("===== REPORT ====="),
             ("TRUE: " ++ toString usr.result_true),
             ("FALSE: " ++ toString usr.result_false),
             ("ERROR: " ++ toString usr.result_error),
             ("UNKNOWN: " ++ toString usr.result_unknown),
             ("NOT EVALUATED: " ++ toString usr.result_neval),
             ("NOT APPLICABLE: " ++ toString usr.result_napp)]
          else []
        let exported : Option (String × oval_result_directives) :=
          match action.f_results with
          | some path => some (path, build_export_directives)
          | none => none
        let rendered : Option String :=
          match action.f_results, action.f_report with
          | some _, some rp => some rp
          | _, _ => none
        let disposition : oscap_status :=
          match action.id with
          | some _ =>
            if ret ≠ Int.ofNat oval_result_t.OVAL_RESULT_FALSE.bit ∧
               ret ≠ Int.ofNat oval_result_t.OVAL_RESULT_UNKNOWN.bit then
              .OSCAP_OK
            else
              .OSCAP_FAIL
          | none =>
            if usr.result_false = 0 ∧ usr.result_unknown = 0 then .OSCAP_OK
            else .OSCAP_FAIL
        { status := disposition,
          out_lines := lines1 ++ reportLines,
          err_lines := [],
          import_called := true,
          results_exported := exported,
          report_rendered := rendered,
          acquired := [Res.defModel, Res.agentSession, Res.usrStruct] ++
            (if exported.isSome then [Res.resultDirectives] else []),
          freed := (if exported.isSome then [Res.resultDirectives] else []) ++
            [Res.agentSession, Res.defModel] ++
            (if action.id = none then [Res.usrStruct] else []) }

/-- `app_evaluate_oval` (oscap-oval.c lines 231-346). The validation
block (lines 240-250): when validation is requested and the document
does not validate, either surface a pending validator-internal error on
stderr and return `OSCAP_FAIL`, or print the fixed invalid-document
marker on stdout and return `OSCAP_ERROR`; otherwise continue with
the model construction and evaluation. -/
def app_evaluate_oval (action : oscap_action) (env : EvalEnv) : EvalOut :=
  if action.validate && !env.validate_ok then
    if env.err_after_validate then
      { EvalOut.base with
        status := .OSCAP_FAIL,
        err_lines := [("ERROR: " ++ env.err_desc)] }
    else
      { EvalOut.base with
        status := .OSCAP_ERROR,
        out_lines := [INVALID_DOCUMENT_MSG] }
  else
    app_evaluate_oval_core action env

/-- Outcomes of the external collaborators invoked by
`app_collect_oval`. -/
structure CollectEnv where
  /-- Return of `oval_definition_model_import` (`none` = NULL); the C
  code never inspects it. -/
  def_model : Option oval_definition_model
  /-- Int return of `oval_probe_query_sysinfo` (0 = success). -/
  sysinfo_ret : Int
  /-- Int return of `oval_probe_query_objects` (0 = success). -/
  objects_ret : Int

/-- Observable outcome of one `app_collect_oval` run. -/
structure CollectOut where
  status : oscap_status
  /-- Destination of the system-characteristics export, when written. -/
  exported_to : Option String
  /-- Whether a results document was produced (the collect code contains
  no results-model construction or export at all). -/
  results_doc_written : Bool
  err_lines : List String
  acquired : List Res
  freed : List Res
deriving DecidableEq, Repr

/-- `app_collect_oval` (oscap-oval.c lines 185-228): import definitions
(unchecked), create an empty syschar model over the import result,
create a probe session, query sysinfo (failure: destroy session, free
models, hard error), attach and free sysinfo, query objects (same
failure contract), export the populated syschar model to /dev/stdout,
release everything. -/
def app_collect_oval (env : CollectEnv) : CollectOut :=
  let defRes : List Res :=
    match env.def_model with
    | some _ => [Res.defModel]
    | none => []
  let acq0 : List Res := defRes ++ [Res.sysModel, Res.probeSession]
  if env.sysinfo_ret ≠ 0 then
    { status := .OSCAP_ERROR, exported_to := none, results_doc_written := false,
      err_lines := [],
      acquired := acq0,
      freed := [Res.probeSession, Res.sysModel] ++ defRes }
  else
    if env.objects_ret ≠ 0 then
      { status := .OSCAP_ERROR, exported_to := none, results_doc_written := false,
        err_lines := [],
        acquired := acq0 ++ [Res.sysinfoStruct],
        freed := [Res.sysinfoStruct, Res.probeSession, Res.sysModel] ++ defRes }
    else
      { status := .OSCAP_OK, exported_to := some ("/dev/stdout"),
        results_doc_written := false,
        err_lines := [],
        acquired := acq0 ++ [Res.sysinfoStruct],
        freed := [Res.sysinfoStruct, Res.probeSession, Res.sysModel] ++ defRes }

/-- Outcomes of the external collaborators invoked by
`app_analyse_oval`. -/
structure AnalyseEnv where
  /-- Return of `oval_definition_model_import` (`none` = NULL). -/
  def_model : Option oval_definition_model
  /-- Int return of `oval_syschar_model_import` (-1 = failure). -/
  syschar_import_ret : Int
  /-- Whether `oscap_err()` is pending after a failed syschar import. -/
  err_after_syschar : Bool
  /-- Description text of the pending library error. -/
  err_desc : String
  /-- Int return of `oval_results_model_eval`; the C code discards it. -/
  eval_ret : Int

/-- Observable outcome of one `app_analyse_oval` run. -/
structure AnalyseOut where
  status : oscap_status
  err_lines : List String
  /-- Whether `oval_results_model_eval` was invoked. -/
  eval_invoked : Bool
  /-- Results export: destination path and the directives passed. -/
  results_exported : Option (String × oval_result_directives)
  acquired : List Res
  freed : List Res

/-- `app_analyse_oval` (oscap-oval.c lines 348-397): import the
Definition Model (fatal on NULL), build a syschar model over it, import
the characteristics document (failure: print messages, free the
definition model, hard error), build a one-element model list, build a
results model, evaluate it (return value discarded), optionally export
with the all-categories/full-detail directives, return `OSCAP_OK`. -/
def app_analyse_oval (action : oscap_action) (env : AnalyseEnv) : AnalyseOut :=
  match env.def_model with
  | none =>
    { status := .OSCAP_ERROR,
      err_lines := [("Failed to import the definition model (" ++ action.f_oval ++ ").")],
      eval_invoked := false, results_exported := none,
      acquired := [], freed := [] }
  | some _ =>
    if env.syschar_import_ret = -1 then
      { status := .OSCAP_ERROR,
        err_lines :=
          [("Failed to import the system characteristics model (" ++ action.f_syschar ++ ").")] ++
          (if env.err_after_syschar then [("ERROR: " ++ env.err_desc)] else []),
        eval_invoked := false, results_exported := none,
        acquired := [Res.defModel, Res.sysModel],
        freed := [Res.defModel] }
    else
      let exported : Option (String × oval_result_directives) :=
        match action.f_results with
        | some path => some (path, build_export_directives)
        | none => none
      { status := .OSCAP_OK,
        err_lines := [],
        eval_invoked := true,
        results_exported := exported,
        acquired := [Res.defModel, Res.sysModel] ++
          (if exported.isSome then [Res.resultDirectives] else []),
        freed := if exported.isSome then [Res.resultDirectives] else [] }

/-- Result of the positional-argument checks of `getopt_oval`. -/
inductive GetoptResult where
  /-- `oscap_module_usage(module, stderr, msg)`: print usage with `msg`
  to stderr and report parse failure. -/
  | usage_err (msg : String)
  /-- Parsing succeeded; the assigned `url_oval` and, for analyse, the
  assigned `url_syschar` (`some none` models assigning the NULL
  `argv[argc]`). -/
  | parsed (url_oval : Option String) (url_syschar : Option (Option String))
deriving DecidableEq, Repr

/-- The positional-argument suffix of `getopt_oval` (oscap-oval.c lines
450-462), entered after the `getopt_long` option loop left `optind` at
the first positional argument; `argv` is the positional-argument view
of the C `argv` with `argc = argv.length`, and `List.get?` past the end
models the NULL terminator `argv[argc]`. -/
def getopt_oval_positionals (is_analyse : Bool) (argv : List String)
    (optind : Nat) : GetoptResult :=
  if optind ≥ argv.length then
    .usage_err ("Definitions file needs to be specified!")
  else
    let url_oval := argv.get? optind
    if is_analyse then
      if optind + 1 > argv.length then
        .usage_err ("System characteristics file needs to be specified!")
      else
        .parsed url_oval (some (argv.get? (optind + 1)))
    else
      .parsed url_oval none

/-! ## Helper lemmas -/

/-- Each callback invocation grows the counter sum by exactly one. -/
theorem app_oval_callback_total (verbose : Int) (defid : String)
    (v : oval_result_t) (u : oval_usr) :
    ((app_oval_callback verbose defid v u).2).total = u.total + 1 := by
  cases v <;> simp [app_oval_callback, oval_usr.total] <;> omega

/-- The batch evaluation folds the callback over the definition list,
so the counter sum grows by the list length. -/
theorem oval_agent_eval_system_total (verbose : Int) (f : String → oval_result_t) :
    ∀ (defs : List String) (u : oval_usr),
      ((oval_agent_eval_system verbose f defs u).2).total = u.total + defs.length := by
  intro defs
  induction defs with
  | nil => intro u; simp [oval_agent_eval_system]
  | cons d rest ih =>
    intro u
    simp only [oval_agent_eval_system, List.length_cons]
    rw [ih, app_oval_callback_total]
    omega

/-- One aggregator step is exactly one counter incremented by one. -/
def incrementsExactlyOne (u u2 : oval_usr) : Prop :=
  u2 = { u with result_true := u.result_true + 1 } ∨
  u2 = { u with result_false := u.result_false + 1 } ∨
  u2 = { u with result_error := u.result_error + 1 } ∨
  u2 = { u with result_unknown := u.result_unknown + 1 } ∨
  u2 = { u with result_neval := u.result_neval + 1 } ∨
  u2 = { u with result_napp := u.result_napp + 1 }

/-! ## Claims -/

/-- C1: for every run of the evaluate workflow that completes
evaluation, in single-definition mode the workflow returns the success
disposition iff the returned verdict is neither `false` nor `unknown`;
in batch mode it returns the success disposition iff both the
aggregator's `false` count and its `unknown` count are zero, regardless
of the other four counters. -/
theorem C1_evaluate_disposition (action : oscap_action) (env : EvalEnv)
    (dm : oval_definition_model)
    (hval : action.validate = false ∨ env.validate_ok = true)
    (hdm : env.def_model = some dm)
    (hsess : env.session_ok = true) :
    (∀ defid v, action.id = some defid → env.eval_def_result = some v →
      ((app_evaluate_oval action env).status = .OSCAP_OK ↔
        (v ≠ .OVAL_RESULT_FALSE ∧ v ≠ .OVAL_RESULT_UNKNOWN))) ∧
    (action.id = none → ¬(env.eval_sys_ret = -1 ∧ env.err_after_eval = true) →
      ((app_evaluate_oval action env).status = .OSCAP_OK ↔
        ((oval_agent_eval_system action.verbosity env.verdictOf
            dm.definitions oval_usr.zero).2.result_false = 0 ∧
         (oval_agent_eval_system action.verbosity env.verdictOf
            dm.definitions oval_usr.zero).2.result_unknown = 0))) := by
  have hv : (action.validate && !env.validate_ok) = false := by
    rcases hval with h | h <;> simp [h]
  constructor
  · intro defid v hid hres
    cases v <;>
      simp [app_evaluate_oval, app_evaluate_oval_core, hv, hdm, hsess, hid, hres,
        oval_result_t.bit]
  · intro hid hcomplete
    simp only [app_evaluate_oval, hv, Bool.false_eq_true, if_false,
      app_evaluate_oval_core, hdm, hsess]
    simp only [hid, Bool.not_true, Bool.false_eq_true, if_false]
    by_cases hfault : env.eval_sys_ret = -1 ∧ env.err_after_eval = true
    · exact absurd hfault hcomplete
    · simp only [hfault, if_false]
      by_cases hz :
          (oval_agent_eval_system action.verbosity env.verdictOf
            dm.definitions oval_usr.zero).2.result_false = 0 ∧
          (oval_agent_eval_system action.verbosity env.verdictOf
            dm.definitions oval_usr.zero).2.result_unknown = 0
      · simp [hz]
      · simp [hz]

/-- Witness for C1: a concrete single-definition run whose verdict is
`true` gets the success disposition. -/
theorem C1_evaluate_disposition_witness :
    (app_evaluate_oval
      { validate := false, verbosity := 0, id := some ("oval:org.ex:def:1"),
        f_results := none, f_report := none, f_oval := ("defs.xml"), f_syschar := ("") }
      { validate_ok := true, err_after_validate := false,
        def_model := some { definitions := [("oval:org.ex:def:1")] },
        session_ok := true, err_after_session := false,
        eval_def_result := some .OVAL_RESULT_TRUE, eval_sys_ret := 0,
        verdictOf := fun _ => .OVAL_RESULT_TRUE,
        err_after_eval := false, err_desc := (""), err_code := 0 }).status = .OSCAP_OK :=
  ((C1_evaluate_disposition _ _ { definitions := [("oval:org.ex:def:1")] }
      (Or.inl rfl) rfl rfl).1 ("oval:org.ex:def:1") .OVAL_RESULT_TRUE rfl rfl).mpr
    (by decide)

/-- C2: after the per-definition callback has run once for each
definition in the Definition Model, the sum of the six aggregator
counters equals the number of definitions, and each callback invocation
increments exactly one counter by one. -/
theorem C2_batch_aggregator_invariant (verbose : Int)
    (verdictOf : String → oval_result_t) (dm : oval_definition_model) :
    ((oval_agent_eval_system verbose verdictOf dm.definitions oval_usr.zero).2).total
        = dm.definitions.length ∧
    ∀ (v2 : Int) (defid : String) (r : oval_result_t) (u : oval_usr),
      incrementsExactlyOne u ((app_oval_callback v2 defid r u).2) := by
  constructor
  · rw [oval_agent_eval_system_total]
    simp [oval_usr.total, oval_usr.zero]
  · intro v2 defid r u
    cases r <;> simp [app_oval_callback, incrementsExactlyOne]

/-- C3: the collect workflow never produces a results document; the
system-characteristics export is written iff both probe queries
succeed; on any probe failure the workflow returns the hard-error
status and writes no characteristics XML. -/
theorem C3_collect_export_policy (env : CollectEnv) :
    (app_collect_oval env).results_doc_written = false ∧
    ((app_collect_oval env).exported_to ≠ none ↔
      (env.sysinfo_ret = 0 ∧ env.objects_ret = 0)) ∧
    ((env.sysinfo_ret ≠ 0 ∨ env.objects_ret ≠ 0) →
      (app_collect_oval env).status = .OSCAP_ERROR ∧
      (app_collect_oval env).exported_to = none) := by
  by_cases h1 : env.sysinfo_ret = 0 <;> by_cases h2 : env.objects_ret = 0 <;>
    simp [app_collect_oval, h1, h2]

/-- Witness for C3: a concrete run whose sysinfo query fails returns
the hard-error status and exports nothing. -/
theorem C3_collect_export_policy_witness :
    (app_collect_oval { def_model := none, sysinfo_ret := -1, objects_ret := 0 }).status
        = .OSCAP_ERROR ∧
    (app_collect_oval { def_model := none, sysinfo_ret := -1, objects_ret := 0 }).exported_to
        = none :=
  (C3_collect_export_policy _).2.2 (Or.inl (by decide))

/-- C4: with pre-validation enabled, a schema mismatch (no pending
validator error) prints the fixed invalid-document marker on stdout and
returns `OSCAP_ERROR`; a validator-internal error prints the error
description on stderr and returns `OSCAP_FAIL`, a status distinct from
the schema-mismatch one; in both cases the Definition Model import is
never reached. -/
theorem C4_prevalidation (action : oscap_action) (env : EvalEnv)
    (hval : action.validate = true) (hbad : env.validate_ok = false) :
    (env.err_after_validate = false →
      ((app_evaluate_oval action env).out_lines = [INVALID_DOCUMENT_MSG] ∧
       (app_evaluate_oval action env).status = .OSCAP_ERROR ∧
       (app_evaluate_oval action env).import_called = false)) ∧
    (env.err_after_validate = true →
      ((app_evaluate_oval action env).err_lines = [("ERROR: " ++ env.err_desc)] ∧
       (app_evaluate_oval action env).status = .OSCAP_FAIL ∧
       (app_evaluate_oval action env).import_called = false)) ∧
    oscap_status.OSCAP_FAIL ≠ oscap_status.OSCAP_ERROR := by
  refine ⟨fun herr => ?_, fun herr => ?_, by decide⟩ <;>
    simp [app_evaluate_oval, hval, hbad, herr, EvalOut.base]

/-- Witness for C4: a concrete run with a schema mismatch prints the
marker, returns `OSCAP_ERROR` and never imports. -/
theorem C4_prevalidation_witness :
    (app_evaluate_oval
      { validate := true, verbosity := 0, id := none, f_results := none,
        f_report := none, f_oval := ("defs.xml"), f_syschar := ("") }
      { validate_ok := false, err_after_validate := false,
        def_model := some { definitions := [] },
        session_ok := true, err_after_session := false,
        eval_def_result := none, eval_sys_ret := 0,
        verdictOf := fun _ => .OVAL_RESULT_TRUE,
        err_after_eval := false, err_desc := (""), err_code := 0 }).status
        = .OSCAP_ERROR :=
  ((C4_prevalidation _ _ rfl rfl).1 rfl).2.1

/-- C5: the claim states that on the evaluation-fault exit the evaluate
workflow releases the agent session, the Definition Model and the
aggregator structure. The code returns from that branch without any
release: at this concrete batch run whose evaluation call returns -1
with an error pending, the workflow returns the hard-error status while
all three resources are still acquired and the freed list is empty. -/
theorem C5_eval_fault_leaks_resources :
    (app_evaluate_oval
      { validate := false, verbosity := 0, id := none, f_results := none,
        f_report := none, f_oval := ("defs.xml"), f_syschar := ("") }
      { validate_ok := true, err_after_validate := false,
        def_model := some { definitions := [("oval:org.ex:def:1")] },
        session_ok := true, err_after_session := false,
        eval_def_result := none, eval_sys_ret := -1,
        verdictOf := fun _ => .OVAL_RESULT_TRUE,
        err_after_eval := true, err_desc := ("probe failure"), err_code := 1 }).status
        = .OSCAP_ERROR ∧
    (app_evaluate_oval
      { validate := false, verbosity := 0, id := none, f_results := none,
        f_report := none, f_oval := ("defs.xml"), f_syschar := ("") }
      { validate_ok := true, err_after_validate := false,
        def_model := some { definitions := [("oval:org.ex:def:1")] },
        session_ok := true, err_after_session := false,
        eval_def_result := none, eval_sys_ret := -1,
        verdictOf := fun _ => .OVAL_RESULT_TRUE,
        err_after_eval := true, err_desc := ("probe failure"), err_code := 1 }).acquired
        = [Res.defModel, Res.agentSession, Res.usrStruct] ∧
    (app_evaluate_oval
      { validate := false, verbosity := 0, id := none, f_results := none,
        f_report := none, f_oval := ("defs.xml"), f_syschar := ("") }
      { validate_ok := true, err_after_validate := false,
        def_model := some { definitions := [("oval:org.ex:def:1")] },
        session_ok := true, err_after_session := false,
        eval_def_result := none, eval_sys_ret := -1,
        verdictOf := fun _ => .OVAL_RESULT_TRUE,
        err_after_eval := true, err_desc := ("probe failure"), err_code := 1 }).freed
        = [] :=
  ⟨rfl, rfl, rfl⟩

/-- C6: when both the Definition Model import and the
System-Characteristics import succeed, the analyse workflow returns the
success disposition whatever the evaluation produces. -/
theorem C6_analyse_success_disposition (action : oscap_action)
    (env : AnalyseEnv) (dm : oval_definition_model)
    (h1 : env.def_model = some dm) (h2 : env.syschar_import_ret ≠ -1) :
    (app_analyse_oval action env).status = .OSCAP_OK := by
  simp [app_analyse_oval, h1, h2]

/-- Witness for C6: a concrete analyse run with both imports succeeding
returns success. -/
theorem C6_analyse_success_disposition_witness :
    (app_analyse_oval
      { validate := false, verbosity := 0, id := none, f_results := none,
        f_report := none, f_oval := ("defs.xml"), f_syschar := ("sc.xml") }
      { def_model := some { definitions := [("oval:org.ex:def:1")] },
        syschar_import_ret := 0, err_after_syschar := false,
        err_desc := (""), eval_ret := -1 }).status = .OSCAP_OK :=
  C6_analyse_success_disposition _ _ { definitions := [("oval:org.ex:def:1")] }
    rfl (by decide)

/-- C7: the claim states that an analyse invocation with a definitions
file but no second positional argument fails option parsing with a
usage message. At the concrete argument list holding only the
definitions file the check `(optind+1) > argc` cannot fire (it is
unreachable after the `optind >= argc` check), so parsing succeeds and
`url_syschar` is assigned the NULL terminator `argv[argc]`. -/
theorem C7_analyse_missing_syschar_not_rejected :
    getopt_oval_positionals true [("defs.xml")] 0 =
      GetoptResult.parsed (some ("defs.xml")) (some none) := rfl

/-- No verdict's int value is the error value -1. -/
theorem bit_ne_neg_one (v : oval_result_t) : (Int.ofNat v.bit) ≠ -1 := by
  cases v <;> decide

/-- Inversion: whatever directives the evaluate workflow hands to the
results export are the all-categories full-detail ones. -/
theorem app_evaluate_oval_export_inv (action : oscap_action) (env : EvalEnv)
    (p : String) (d : oval_result_directives)
    (h : (app_evaluate_oval action env).results_exported = some (p, d)) :
    d = build_export_directives := by
  by_cases hb : (action.validate && !env.validate_ok) = true
  · by_cases he : env.err_after_validate = true <;>
      simp [app_evaluate_oval, hb, he, EvalOut.base] at h
  · rcases hdm : env.def_model with _ | dm
    · simp [app_evaluate_oval, app_evaluate_oval_core, hb, hdm, EvalOut.base] at h
    · by_cases hs : env.session_ok = true
      · rcases hid : action.id with _ | defid
        · by_cases hfault : env.eval_sys_ret = -1 ∧ env.err_after_eval = true
          · simp [app_evaluate_oval, app_evaluate_oval_core, hb, hdm, hs, hid,
              hfault, EvalOut.base] at h
          · rcases hf : action.f_results with _ | path
            · simp [app_evaluate_oval, app_evaluate_oval_core, hb, hdm, hs, hid,
                hfault, hf, EvalOut.base] at h
            · simp [app_evaluate_oval, app_evaluate_oval_core, hb, hdm, hs, hid,
                hfault, hf, EvalOut.base] at h
              exact h.2.symm
        · rcases hr : env.eval_def_result with _ | v
          · by_cases herr : env.err_after_eval = true
            · simp [app_evaluate_oval, app_evaluate_oval_core, hb, hdm, hs, hid,
                hr, herr, EvalOut.base] at h
            · rcases hf : action.f_results with _ | path
              · simp [app_evaluate_oval, app_evaluate_oval_core, hb, hdm, hs, hid,
                  hr, herr, hf, EvalOut.base] at h
              · simp [app_evaluate_oval, app_evaluate_oval_core, hb, hdm, hs, hid,
                  hr, herr, hf, EvalOut.base] at h
                exact h.2.symm
          · rcases hf : action.f_results with _ | path
            · simp [app_evaluate_oval, app_evaluate_oval_core, hb, hdm, hs, hid,
                hr, bit_ne_neg_one, hf, EvalOut.base] at h
            · simp [app_evaluate_oval, app_evaluate_oval_core, hb, hdm, hs, hid,
                hr, bit_ne_neg_one, hf, EvalOut.base] at h
              exact h.2.symm
      · simp [app_evaluate_oval, app_evaluate_oval_core, hb, hdm, hs, EvalOut.base] at h

/-- Inversion: whatever directives the analyse workflow hands to the
results export are the all-categories full-detail ones. -/
theorem app_analyse_oval_export_inv (action : oscap_action) (env : AnalyseEnv)
    (p : String) (d : oval_result_directives)
    (h : (app_analyse_oval action env).results_exported = some (p, d)) :
    d = build_export_directives := by
  rcases hdm : env.def_model with _ | dm
  · simp [app_analyse_oval, hdm] at h
  · by_cases hsc : env.syschar_import_ret = -1
    · simp [app_analyse_oval, hdm, hsc] at h
    · rcases hf : action.f_results with _ | path
      · simp [app_analyse_oval, hdm, hsc, hf] at h
      · simp [app_analyse_oval, hdm, hsc, hf] at h
        exact h.2.symm

/-- C8: whenever the evaluate or the analyse workflow exports results,
the directives passed to the export report all six verdict categories
and set all six to full content detail. -/
theorem C8_export_directives_full (action : oscap_action) (eenv : EvalEnv)
    (aenv : AnalyseEnv) (p : String) (d : oval_result_directives) :
    (((app_evaluate_oval action eenv).results_exported = some (p, d) →
      ∀ c, d.reported c = true ∧ d.content c = .OVAL_DIRECTIVE_CONTENT_FULL) ∧
     ((app_analyse_oval action aenv).results_exported = some (p, d) →
      ∀ c, d.reported c = true ∧ d.content c = .OVAL_DIRECTIVE_CONTENT_FULL)) := by
  have key : ∀ c, build_export_directives.reported c = true ∧
      build_export_directives.content c = .OVAL_DIRECTIVE_CONTENT_FULL := by
    intro c
    cases c <;> exact ⟨rfl, rfl⟩
  constructor
  · intro h
    rw [app_evaluate_oval_export_inv action eenv p d h]
    exact key
  · intro h
    rw [app_analyse_oval_export_inv action aenv p d h]
    exact key

/-- Witness for C8: a concrete evaluate run that exports, with the
directives it passes reporting every category at full detail. -/
theorem C8_export_directives_full_witness :
    (app_evaluate_oval
      { validate := false, verbosity := 0, id := none, f_results := some ("res.xml"),
        f_report := none, f_oval := ("defs.xml"), f_syschar := ("") }
      { validate_ok := true, err_after_validate := false,
        def_model := some { definitions := [("oval:org.ex:def:1")] },
        session_ok := true, err_after_session := false,
        eval_def_result := none, eval_sys_ret := 0,
        verdictOf := fun _ => .OVAL_RESULT_TRUE,
        err_after_eval := false, err_desc := (""), err_code := 0 }).results_exported
        = some (("res.xml"), build_export_directives) ∧
    (∀ c, build_export_directives.reported c = true ∧
      build_export_directives.content c = .OVAL_DIRECTIVE_CONTENT_FULL) :=
  ⟨rfl,
   (C8_export_directives_full
      { validate := false, verbosity := 0, id := none, f_results := some ("res.xml"),
        f_report := none, f_oval := ("defs.xml"), f_syschar := ("") }
      { validate_ok := true, err_after_validate := false,
        def_model := some { definitions := [("oval:org.ex:def:1")] },
        session_ok := true, err_after_session := false,
        eval_def_result := none, eval_sys_ret := 0,
        verdictOf := fun _ => .OVAL_RESULT_TRUE,
        err_after_eval := false, err_desc := (""), err_code := 0 }
      { def_model := none, syschar_import_ret := 0, err_after_syschar := false,
        err_desc := (""), eval_ret := 0 }
      ("res.xml") build_export_directives).1 rfl⟩

/-- C9: the collect workflow never checks the Definition Model import:
with a NULL import result it still constructs the syschar model and the
probe session, prints no import-failure message, and its status is
decided by the probe queries alone. -/
theorem C9_collect_ignores_import_failure (env : CollectEnv)
    (h : env.def_model = none) :
    Res.sysModel ∈ (app_collect_oval env).acquired ∧
    Res.probeSession ∈ (app_collect_oval env).acquired ∧
    (app_collect_oval env).err_lines = [] ∧
    (env.sysinfo_ret = 0 → env.objects_ret = 0 →
      (app_collect_oval env).status = .OSCAP_OK) := by
  by_cases h1 : env.sysinfo_ret = 0 <;> by_cases h2 : env.objects_ret = 0 <;>
    simp [app_collect_oval, h, h1, h2]

/-- Witness for C9: a concrete collect run over a NULL Definition Model
still builds the syschar model and ends with the success status. -/
theorem C9_collect_ignores_import_failure_witness :
    Res.sysModel ∈
      (app_collect_oval { def_model := none, sysinfo_ret := 0, objects_ret := 0 }).acquired ∧
    (app_collect_oval { def_model := none, sysinfo_ret := 0, objects_ret := 0 }).status
        = .OSCAP_OK :=
  ⟨(C9_collect_ignores_import_failure _ rfl).1,
   (C9_collect_ignores_import_failure _ rfl).2.2.2 rfl rfl⟩

/-- C10: the analyse workflow ignores the outcome of the results-model
evaluation: its observable behaviour is identical for any two values of
that outcome, and once both imports succeed it always proceeds to the
optional export and returns the success disposition. -/
theorem C10_analyse_eval_outcome_ignored (action : oscap_action)
    (env : AnalyseEnv) (e1 e2 : Int) :
    app_analyse_oval action { env with eval_ret := e1 } =
      app_analyse_oval action { env with eval_ret := e2 } ∧
    (∀ dm, env.def_model = some dm → env.syschar_import_ret ≠ -1 →
      ((app_analyse_oval action env).status = .OSCAP_OK ∧
       (app_analyse_oval action env).eval_invoked = true ∧
       ((app_analyse_oval action env).results_exported.isSome
          = action.f_results.isSome))) := by
  constructor
  · rfl
  · intro dm h1 h2
    refine ⟨?_, ?_, ?_⟩
    · simp [app_analyse_oval, h1, h2]
    · simp [app_analyse_oval, h1, h2]
    · simp only [app_analyse_oval, h1, h2, if_neg, if_false]
      cases action.f_results <;> simp [h2]

/-- Witness for C10: a concrete analyse run whose evaluation outcome is
-1 still exports and returns success. -/
theorem C10_analyse_eval_outcome_ignored_witness :
    (app_analyse_oval
      { validate := false, verbosity := 0, id := none, f_results := some ("res.xml"),
        f_report := none, f_oval := ("defs.xml"), f_syschar := ("sc.xml") }
      { def_model := some { definitions := [("oval:org.ex:def:1")] },
        syschar_import_ret := 0, err_after_syschar := false,
        err_desc := (""), eval_ret := -1 }).status = .OSCAP_OK ∧
    (app_analyse_oval
      { validate := false, verbosity := 0, id := none, f_results := some ("res.xml"),
        f_report := none, f_oval := ("defs.xml"), f_syschar := ("sc.xml") }
      { def_model := some { definitions := [("oval:org.ex:def:1")] },
        syschar_import_ret := 0, err_after_syschar := false,
        err_desc := (""), eval_ret := -1 }).results_exported.isSome = true :=
  ⟨((C10_analyse_eval_outcome_ignored _ _ (-1) (-1)).2
      { definitions := [("oval:org.ex:def:1")] } rfl (by decide)).1,
   by
    rw [((C10_analyse_eval_outcome_ignored _ _ (-1) (-1)).2
      { definitions := [("oval:org.ex:def:1")] } rfl (by decide)).2.2]
    rfl⟩

end OscapOval
